import Mathlib

/-!
Verification of the session/authentication manager in `src/libs/auth.ts`
(class `AuthService`), shallowly embedded in Lean 4.

Modelling conventions:
- `localStorage` is a record `Store` with the three slots the code uses
  (`access_token`, `refresh_token`, `user`); a stored value is
  `Option String` (`none` = key absent).
- The browser check `typeof window === 'undefined'` is a boolean parameter
  `w : Bool` (`true` = browser context, persistence medium available).
  An *unguarded* access to `localStorage` in a non-browser context throws
  a `ReferenceError`; the guarded accessors return `null` / no-op instead.
- JavaScript string truthiness (`if (s)`, `s || t`, `!!s`) is modelled by
  `truthyS` (`null`/`undefined`/`""` are falsy).
- The HTTP transport is an oracle: each method takes the outcome of the
  `fetch` calls it would issue as an explicit argument (a sum type per
  endpoint: network rejection, non-ok response with its error body, or an
  ok response with its typed body).
- `JSON.stringify` / `JSON.parse` for the `user` slot are external library
  functions, passed in as parameters `strf : User → String` and
  `parse : String → Option User` (`none` = `JSON.parse` throws).
- A method that can throw returns `Except JsError α × Store`: the thrown
  error together with the store as left behind (JS exceptions do not roll
  back storage writes).
-/

/-- JavaScript errors observable from the embedded code. -/
inductive JsError where
  /-- `throw new Error(msg)` -/
  | error (msg : String)
  /-- `ReferenceError: localStorage is not defined` (unguarded storage
  access in a non-browser context) -/
  | refError
  /-- `SyntaxError` thrown by `JSON.parse` on malformed input -/
  | syntaxError
  /-- rejection of the `fetch` promise itself (network-level failure) -/
  | transport
  deriving DecidableEq, Repr

/-- JS truthiness of a `string | null | undefined` value:
`null`, `undefined` and `""` are falsy. -/
def truthyS : Option String → Bool
  | none => false
  | some s => s ≠ ""

/-- JS `a || b` on `string | null | undefined` values. -/
def jsOr (a b : Option String) : Option String :=
  if truthyS a then a else b

/-- `error.detail || error.error || dflt`: the error-message extraction
used by login/register/update/changePassword/deleteAccount. -/
def errMsg (detail err : Option String) (dflt : String) : String :=
  match jsOr (jsOr detail err) (some dflt) with
  | some s => s
  | none => dflt

/-- The `User` interface (`src/libs/auth.ts` lines 3–13). -/
structure User where
  id : Nat
  username : String
  email : String
  first_name : Option String
  last_name : Option String
  is_active : Bool
  is_staff : Bool
  is_superuser : Bool
  date_joined : String
  deriving DecidableEq, Repr

/-- The three `localStorage` slots the code uses. -/
structure Store where
  access_token : Option String
  refresh_token : Option String
  user : Option String
  deriving DecidableEq, Repr

/-- The store with all three slots absent. -/
def Store.empty : Store := ⟨none, none, none⟩

/-- Unguarded `localStorage.setItem('access_token', v)` (line 263 of the
source, inside `refreshAccessToken`): throws `ReferenceError` when no
browser context exists. -/
def rawSetAccessToken (w : Bool) (st : Store) (v : String) :
    Except JsError Store :=
  if w then .ok { st with access_token := some v } else .error .refError

/-- `getAccessToken()`: guarded read, `null` outside the browser. -/
def getAccessToken (w : Bool) (st : Store) : Option String :=
  if w then st.access_token else none

/-- `getRefreshToken()`: guarded read, `null` outside the browser. -/
def getRefreshToken (w : Bool) (st : Store) : Option String :=
  if w then st.refresh_token else none

/-- `setTokens(accessToken, refreshToken)`: guarded double write. -/
def setTokens (w : Bool) (st : Store) (a r : String) : Store :=
  if w then { st with access_token := some a, refresh_token := some r }
  else st

/-- `clearTokens()`: guarded removal of all three slots. -/
def clearTokens (w : Bool) (st : Store) : Store :=
  if w then Store.empty else st

/-- `setUser(user)`: guarded write of `JSON.stringify(user)`. -/
def setUser (w : Bool) (strf : User → String) (st : Store) (u : User) :
    Store :=
  if w then { st with user := some (strf u) } else st

/-- `getUser()`: guarded read of the `user` slot followed by
`userStr ? JSON.parse(userStr) : null`; a malformed stored string makes
`JSON.parse` throw `SyntaxError`, which this method does not catch. -/
def getUser (w : Bool) (parse : String → Option User) (st : Store) :
    Except JsError (Option User) :=
  if w then
    match st.user with
    | none => .ok none
    | some s =>
      if s ≠ "" then
        match parse s with
        | some u => .ok (some u)
        | none => .error .syntaxError
      else .ok none
  else .ok none

/-- `isAuthenticated()`: `!!this.getAccessToken()`. -/
def isAuthenticated (w : Bool) (st : Store) : Bool :=
  truthyS (getAccessToken w st)

/-- Body of an ok refresh response: `{access_token?}` possibly nested
under `tokens`. -/
structure RefreshTokens where
  access_token : Option String
  deriving DecidableEq, Repr

/-- The refresh endpoint's success body: the code accepts both
`data.access_token` and `data.tokens?.access_token`. -/
structure RefreshBody where
  access_token : Option String
  tokens : Option RefreshTokens
  deriving DecidableEq, Repr

/-- Outcome of the single `fetch` issued by `refreshAccessToken`. -/
inductive RefreshResp where
  /-- the `fetch` promise rejects -/
  | netErr
  /-- `response.ok` is `false` -/
  | fail
  /-- `response.ok` is `true`, with the parsed JSON body -/
  | success (body : RefreshBody)
  deriving DecidableEq, Repr

/-- `data.access_token || data.tokens?.access_token` (line 260). -/
def extractAccessToken (body : RefreshBody) : Option String :=
  jsOr body.access_token (body.tokens.bind (·.access_token))

/-- The `try` block of `refreshAccessToken` (lines 250–267): performed
only after the refresh token was found truthy.  Returns the boolean
result and the store, or the error the block throws. -/
def refreshTryBody (w : Bool) (st : Store) (r : RefreshResp) :
    Except JsError (Bool × Store) :=
  match r with
  | .netErr => .error .transport
  | .fail => .ok (false, st)
  | .success body =>
    let accessToken := extractAccessToken body
    if truthyS accessToken then
      match accessToken with
      | some v =>
        match rawSetAccessToken w st v with
        | .ok st' => .ok (true, st')
        | .error e => .error e
      | none => .ok (false, st)
    else .ok (false, st)

/-- `refreshAccessToken()` (lines 246–272): returns `false` immediately
when the stored refresh token is falsy (no fetch), otherwise runs the
`try` block; its `catch` converts any thrown error to `false`.  The
method itself never throws, hence the plain `Bool × Store` result. -/
def refreshAccessToken (w : Bool) (st : Store) (r : RefreshResp) :
    Bool × Store :=
  let refreshToken := getRefreshToken w st
  if truthyS refreshToken then
    match refreshTryBody w st r with
    | .ok res => res
    | .error _ => (false, st)
  else (false, st)

/-- The login endpoint's success body (`LoginResponse`, lines 15–22). -/
structure LoginTokens where
  access : String
  refresh : String
  deriving DecidableEq, Repr

/-- `LoginResponse` interface. -/
structure LoginResponse where
  message : String
  user : User
  tokens : LoginTokens
  deriving DecidableEq, Repr

/-- Outcome of the `fetch` issued by `login`. -/
inductive LoginResp where
  /-- the `fetch` promise rejects -/
  | netErr
  /-- `response.ok` is `false`; the error body's `detail`/`error` fields -/
  | fail (detail err : Option String)
  /-- `response.ok` is `true` -/
  | success (data : LoginResponse)
  deriving DecidableEq, Repr

/-- `login(username, password)` (lines 90–109).  The credentials only
feed the request body, so they do not appear here; the transport outcome
`r` stands for the server's answer to them. -/
def login (w : Bool) (strf : User → String) (st : Store) (r : LoginResp) :
    Except JsError LoginResponse × Store :=
  match r with
  | .netErr => (.error .transport, st)
  | .fail detail err =>
    (.error (.error (errMsg detail err "Login failed")), st)
  | .success data =>
    let st := setTokens w st data.tokens.access data.tokens.refresh
    let st := setUser w strf st data.user
    (.ok data, st)

/-- The register endpoint's token object (optional in the response). -/
structure RegisterTokens where
  access_token : String
  refresh_token : String
  token_type : String
  deriving DecidableEq, Repr

/-- `RegisterResponse` interface (lines 24–32): `tokens` may be absent. -/
structure RegisterResponse where
  message : String
  user : User
  tokens : Option RegisterTokens
  deriving DecidableEq, Repr

/-- Outcome of the `fetch` issued by `register`. -/
inductive RegisterResp where
  | netErr
  | fail (detail err : Option String)
  | success (data : RegisterResponse)
  deriving DecidableEq, Repr

/-- `register(...)` (lines 111–146): persists tokens and user only when
the success body carries a `tokens` field. -/
def register (w : Bool) (strf : User → String) (st : Store)
    (r : RegisterResp) : Except JsError RegisterResponse × Store :=
  match r with
  | .netErr => (.error .transport, st)
  | .fail detail err =>
    (.error (.error (errMsg detail err "Registration failed")), st)
  | .success data =>
    match data.tokens with
    | some t =>
      let st := setTokens w st t.access_token t.refresh_token
      let st := setUser w strf st data.user
      (.ok data, st)
    | none => (.ok data, st)

/-- Outcome of the `fetch` issued by `logout` (its response body is
never read; only promise rejection is distinguishable). -/
inductive LogoutResp where
  /-- the `fetch` promise rejects -/
  | netErr
  /-- the `fetch` promise resolves (any status) -/
  | completed
  deriving DecidableEq, Repr

/-- `logout()` (lines 148–164): fetch only when the stored refresh token
is truthy; `catch` swallows any error; `finally` runs `clearTokens`. -/
def logout (w : Bool) (st : Store) (r : LogoutResp) :
    Except JsError Unit × Store :=
  let refreshToken := getRefreshToken w st
  let tryOutcome : Except JsError Unit :=
    if truthyS refreshToken then
      match r with
      | .netErr => .error .transport
      | .completed => .ok ()
    else .ok ()
  match tryOutcome with
  | .ok _ => (.ok (), clearTokens w st)
  | .error _ => (.ok (), clearTokens w st)

/-- Outcome of the `fetch` issued by `deleteAccount`. -/
inductive DeleteResp where
  | netErr
  | fail (detail err : Option String)
  | success
  deriving DecidableEq, Repr

/-- `deleteAccount()` (lines 231–244): clears the local session only
after a success response; a non-ok response throws and leaves the store
untouched. -/
def deleteAccount (w : Bool) (st : Store) (r : DeleteResp) :
    Except JsError Unit × Store :=
  match r with
  | .netErr => (.error .transport, st)
  | .fail detail err =>
    (.error (.error (errMsg detail err "Account deletion failed")), st)
  | .success => (.ok (), clearTokens w st)

/-- Outcome of one `fetch` issued by `getProfile`. -/
inductive ProfileResp where
  /-- the `fetch` promise rejects -/
  | netErr
  /-- `response.ok` is `false`, with `response.status` -/
  | fail (status : Nat)
  /-- `response.ok` is `true`, with the `User` body -/
  | success (user : User)
  deriving DecidableEq, Repr

/-- One round of `getProfile`'s transport activity: the profile fetch's
outcome, paired with the outcome the refresh endpoint would give if this
round's 401 leads to a `refreshAccessToken` call (ignored otherwise). -/
abbrev ProfileRound := ProfileResp × RefreshResp

/-- `getProfile()` (lines 166–187).  On a 401 it runs
`refreshAccessToken` and, when that succeeds, *recursively calls itself*
(`return this.getProfile()`, line 177).  Each (re-)invocation consumes
the head of the transport trace; `none` means the execution is still
running when the supplied trace is exhausted, i.e. the recursion has not
terminated within the trace. -/
def getProfile (w : Bool) (strf : User → String) (st : Store) :
    List ProfileRound → Option (Except JsError User × Store)
  | [] => none
  | (pr, rr) :: rest =>
    match pr with
    | .netErr => some (.error .transport, st)
    | .fail status =>
      if status = 401 then
        match refreshAccessToken w st rr with
        | (true, st') => getProfile w strf st' rest
        | (false, st') => some (.error (.error "Session expired"), st')
      else some (.error (.error "Failed to fetch profile"), st)
    | .success user =>
      some (.ok user, setUser w strf st user)

/-! ### Sample values used by witnesses and counterexamples -/

/-- A concrete user record for witnesses. -/
def aliceUser : User :=
  ⟨1, "alice", "alice@example.com", none, none, true, false, false,
   "2024-01-01T00:00:00Z"⟩

/-- A concrete serializer standing in for `JSON.stringify` in witnesses. -/
def sampleStrf : User → String := fun u => u.username

/-- A concrete deserializer standing in for `JSON.parse` in witnesses:
it only recognises the serialization of `aliceUser`. -/
def sampleParse : String → Option User := fun s =>
  if s = "alice" then some aliceUser else none

/-- A concrete store holding a full session. -/
def sampleStore : Store := ⟨some "A1", some "R1", some "alice"⟩

/-! ### C2: logout always clears and never errors -/

/-- **C2.** For every environment, prior store and transport outcome
(completion or rejection — the code also skips the fetch entirely when
no refresh token is stored, covered here by quantifying over all
stores), `logout` returns without error, and afterwards all three slots
read back as absent: the access-token getter, refresh-token getter and
identity getter all return absent. -/
theorem C2_logout_clears (w : Bool) (st : Store) (r : LogoutResp)
    (parse : String → Option User) :
    (logout w st r).1 = Except.ok () ∧
    getAccessToken w (logout w st r).2 = none ∧
    getRefreshToken w (logout w st r).2 = none ∧
    getUser w parse (logout w st r).2 = Except.ok none := by
  have hsnd : (logout w st r).2 = clearTokens w st := by
    cases r <;> simp [logout] <;> split <;> rfl
  have hfst : (logout w st r).1 = Except.ok () := by
    cases r <;> simp [logout] <;> split <;> rfl
  refine ⟨hfst, ?_, ?_, ?_⟩ <;> rw [hsnd] <;> cases w <;>
    simp [clearTokens, getAccessToken, getRefreshToken, getUser, Store.empty]

/-! ### C3: refreshAccessToken's complete false/true characterization -/

/-- **C3.** `refreshAccessToken` is modelled as a total function into
`Bool × Store` — it never throws, since its only pre-`try` step is the
guarded getter and its `catch` swallows everything.  It returns `false`
with no network call when the stored refresh token is absent (the
result is then independent of the transport outcome); `false` on a
non-success response, on a transport rejection, and on a success
response with no extractable access token; and it returns `true`
exactly when an access token is extracted from a success response and
the store write succeeds (browser context, refresh token present). -/
theorem C3_refresh_characterization (w : Bool) (st : Store)
    (r : RefreshResp) :
    (getRefreshToken w st = none →
      refreshAccessToken w st r = (false, st) ∧
      ∀ r', refreshAccessToken w st r' = refreshAccessToken w st r) ∧
    (r = .fail → (refreshAccessToken w st r).1 = false) ∧
    (r = .netErr → (refreshAccessToken w st r).1 = false) ∧
    (∀ body, r = .success body → truthyS (extractAccessToken body) = false →
      (refreshAccessToken w st r).1 = false) ∧
    ((refreshAccessToken w st r).1 = true ↔
      truthyS (getRefreshToken w st) = true ∧ w = true ∧
      ∃ body, r = .success body ∧ truthyS (extractAccessToken body) = true) := by
  refine ⟨?_, ?_, ?_, ?_, ?_⟩
  · intro habs
    have h : truthyS (getRefreshToken w st) = false := by
      rw [habs]; rfl
    constructor
    · simp [refreshAccessToken, h]
    · intro r'; simp [refreshAccessToken, h]
  · rintro rfl
    by_cases h : truthyS (getRefreshToken w st) = true <;>
      simp [refreshAccessToken, refreshTryBody, h]
  · rintro rfl
    by_cases h : truthyS (getRefreshToken w st) = true <;>
      simp [refreshAccessToken, refreshTryBody, h]
  · rintro body rfl hex
    by_cases h : truthyS (getRefreshToken w st) = true <;>
      simp [refreshAccessToken, refreshTryBody, h, hex]
  · constructor
    · intro htrue
      by_cases h : truthyS (getRefreshToken w st) = true
      · refine ⟨h, ?_⟩
        cases r with
        | netErr => simp [refreshAccessToken, refreshTryBody, h] at htrue
        | fail => simp [refreshAccessToken, refreshTryBody, h] at htrue
        | success body =>
          by_cases hex : truthyS (extractAccessToken body) = true
          · cases hw : w with
            | false =>
              subst hw
              simp [refreshAccessToken, refreshTryBody, h, hex,
                rawSetAccessToken] at htrue
              · cases hacc : extractAccessToken body with
                | none => rw [hacc] at hex; simp [truthyS] at hex
                | some v =>
                  rw [hacc] at htrue
                  simp at htrue
            | true => exact ⟨rfl, body, rfl, hex⟩
          · simp [refreshAccessToken, refreshTryBody, h, hex] at htrue
      · simp [refreshAccessToken, h] at htrue
    · rintro ⟨h, hw, body, rfl, hex⟩
      subst hw
      cases hacc : extractAccessToken body with
      | none => rw [hacc] at hex; simp [truthyS] at hex
      | some v =>
        rw [hacc] at hex
        simp [refreshAccessToken, refreshTryBody, h, hacc, hex,
          rawSetAccessToken]

/-- Witness for C3: concrete instance with the refresh token absent —
the call returns `false` with the store untouched. -/
theorem C3_witness :
    refreshAccessToken true Store.empty RefreshResp.fail =
      (false, Store.empty) :=
  ((C3_refresh_characterization true Store.empty RefreshResp.fail).1
    (by rfl)).1

/-! ### C6: the two accepted refresh response shapes are equivalent -/

/-- **C6.** For every environment, prior store and token value `v`,
`refreshAccessToken` behaves identically on the two accepted success
shapes `{access_token: v}` and `{tokens: {access_token: v}}`: the whole
result — returned boolean and resulting store — is equal.  (This also
covers the degenerate `v = ""` case, where JS truthiness makes both
shapes yield `false` with the store untouched.) -/
theorem C6_shape_equivalence (w : Bool) (st : Store) (v : String) :
    refreshAccessToken w st (.success ⟨some v, none⟩) =
      refreshAccessToken w st (.success ⟨none, some ⟨some v⟩⟩) := by
  have hext : ∀ b : Bool, truthyS (extractAccessToken ⟨some v, none⟩) = b →
      truthyS (extractAccessToken ⟨none, some ⟨some v⟩⟩) = b := by
    intro b
    by_cases hv : v = "" <;>
      simp [extractAccessToken, jsOr, truthyS, hv, Option.bind]
  by_cases hv : v = ""
  · subst hv
    by_cases h : truthyS (getRefreshToken w st) = true <;>
      simp [refreshAccessToken, refreshTryBody, h, extractAccessToken,
        jsOr, truthyS, Option.bind]
  · have h1 : extractAccessToken ⟨some v, none⟩ = some v := by
      simp [extractAccessToken, jsOr, truthyS, hv]
    have h2 : extractAccessToken ⟨none, some ⟨some v⟩⟩ = some v := by
      simp [extractAccessToken, jsOr, truthyS, Option.bind]
    by_cases h : truthyS (getRefreshToken w st) = true <;>
      simp [refreshAccessToken, refreshTryBody, h, h1, h2]

/-! ### C7: successful refresh writes only the access-token slot -/

/-- Helper: `refreshAccessToken` never changes the refresh-token or
identity slots, whatever its outcome. -/
theorem refresh_store_frame (w : Bool) (st : Store) (r : RefreshResp) :
    ((refreshAccessToken w st r).2).refresh_token = st.refresh_token ∧
    ((refreshAccessToken w st r).2).user = st.user := by
  by_cases hrt : truthyS (getRefreshToken w st) = true
  · cases r with
    | netErr => simp [refreshAccessToken, refreshTryBody, hrt]
    | fail => simp [refreshAccessToken, refreshTryBody, hrt]
    | success body =>
      cases hacc : extractAccessToken body with
      | none =>
        simp [refreshAccessToken, refreshTryBody, hrt, hacc, truthyS]
      | some v =>
        by_cases hv : truthyS (some v) = true
        · cases w with
          | false =>
            simp [refreshAccessToken, refreshTryBody, hrt, hacc, hv,
              rawSetAccessToken]
          | true =>
            simp [refreshAccessToken, refreshTryBody, hrt, hacc, hv,
              rawSetAccessToken]
        · simp [refreshAccessToken, refreshTryBody, hrt, hacc, hv]
  · simp [refreshAccessToken, hrt]

/-- **C7.** Whenever `refreshAccessToken` succeeds (returns `true`),
the resulting store agrees with the prior store on the refresh-token
slot and on the identity slot: only the access-token slot is written,
for every environment, prior store and transport outcome. -/
theorem C7_refresh_frame (w : Bool) (st : Store) (r : RefreshResp)
    (st' : Store) (h : refreshAccessToken w st r = (true, st')) :
    st'.refresh_token = st.refresh_token ∧ st'.user = st.user := by
  have h2 : (refreshAccessToken w st r).2 = st' := by rw [h]
  rw [← h2]
  exact refresh_store_frame w st r

/-- Witness for C7: a concrete successful refresh leaving the
refresh-token and identity slots untouched. -/
theorem C7_witness :
    (Store.mk (some "A2") (some "R1") (some "alice")).refresh_token =
        sampleStore.refresh_token ∧
      (Store.mk (some "A2") (some "R1") (some "alice")).user =
        sampleStore.user :=
  C7_refresh_frame true sampleStore (.success ⟨some "A2", none⟩)
    ⟨some "A2", some "R1", some "alice"⟩ (by rfl)

/-! ### C5: login persists exactly the response's tokens and identity -/

/-- **C5.** In a browser context, for every prior store and every
success response accepted by the transport, `login` returns the
response data, leaves the store holding exactly the response's access
token, refresh token and serialized identity, and reading the cached
identity back through `getUser` yields exactly the identity `login`
returned — provided the ambient JSON library round-trips the user
record (`parse (strf u) = some u`, with a non-empty serialization, as
`JSON.stringify` of an object always is). -/
theorem C5_login_roundtrip (strf : User → String)
    (parse : String → Option User) (st : Store) (data : LoginResponse)
    (hrt : parse (strf data.user) = some data.user)
    (hne : strf data.user ≠ "") :
    (login true strf st (.success data)).1 = Except.ok data ∧
    (login true strf st (.success data)).2 =
      ⟨some data.tokens.access, some data.tokens.refresh,
       some (strf data.user)⟩ ∧
    getUser true parse (login true strf st (.success data)).2 =
      Except.ok (some data.user) := by
  have hst : (login true strf st (.success data)).2 =
      ⟨some data.tokens.access, some data.tokens.refresh,
       some (strf data.user)⟩ := by
    simp [login, setTokens, setUser]
  refine ⟨by simp [login], hst, ?_⟩
  rw [hst]
  simp [getUser, hne, hrt]

/-- Witness for C5: the spec's scenario — the transport answers with
tokens `A1`/`R1` and user `alice`; afterwards the store holds exactly
those and `getUser` returns `alice`. -/
theorem C5_witness :
    (login true sampleStrf Store.empty
        (.success ⟨"ok", aliceUser, ⟨"A1", "R1"⟩⟩)).1 =
      Except.ok ⟨"ok", aliceUser, ⟨"A1", "R1"⟩⟩ ∧
    (login true sampleStrf Store.empty
        (.success ⟨"ok", aliceUser, ⟨"A1", "R1"⟩⟩)).2 =
      ⟨some "A1", some "R1", some "alice"⟩ ∧
    getUser true sampleParse
        (login true sampleStrf Store.empty
          (.success ⟨"ok", aliceUser, ⟨"A1", "R1"⟩⟩)).2 =
      Except.ok (some aliceUser) :=
  C5_login_roundtrip sampleStrf sampleParse Store.empty
    ⟨"ok", aliceUser, ⟨"A1", "R1"⟩⟩ (by rfl) (by decide)

/-! ### C4: register's deliberate fork on the optional tokens field -/

/-- **C4.** For every environment, prior store and success response:
if the response has no `tokens` field, `register` returns the
identity-only data, leaves the store exactly unchanged (so nothing is
persisted and `isAuthenticated` keeps its prior value — in particular
it remains `false` if it was `false`); if the response does carry
tokens, then in a browser context the store afterwards holds exactly
those tokens and the serialized identity, and the full data is
returned. -/
theorem C4_register_fork (w : Bool) (strf : User → String) (st : Store)
    (data : RegisterResponse) :
    (data.tokens = none →
      register w strf st (.success data) = (Except.ok data, st) ∧
      (isAuthenticated w st = false →
        isAuthenticated w (register w strf st (.success data)).2 =
          false)) ∧
    (∀ t, data.tokens = some t →
      (register true strf st (.success data)).1 = Except.ok data ∧
      (register true strf st (.success data)).2 =
        ⟨some t.access_token, some t.refresh_token,
         some (strf data.user)⟩) := by
  constructor
  · intro hnone
    have hreg : register w strf st (.success data) =
        (Except.ok data, st) := by
      simp [register, hnone]
    exact ⟨hreg, fun hauth => by rw [hreg]; exact hauth⟩
  · intro t ht
    constructor
    · simp [register, ht]
    · simp [register, ht, setTokens, setUser]

/-- Witness for C4: a tokens-free success response on an empty store —
store unchanged and still unauthenticated; and a tokens-carrying one —
tokens and identity persisted. -/
theorem C4_witness :
    (register true sampleStrf Store.empty
        (.success ⟨"check email", aliceUser, none⟩) =
      (Except.ok ⟨"check email", aliceUser, none⟩, Store.empty)) ∧
    isAuthenticated true
      (register true sampleStrf Store.empty
        (.success ⟨"check email", aliceUser, none⟩)).2 = false ∧
    (register true sampleStrf Store.empty
        (.success ⟨"ok", aliceUser,
          some ⟨"A1", "R1", "bearer"⟩⟩)).2 =
      ⟨some "A1", some "R1", some "alice"⟩ := by
  have h1 := (C4_register_fork true sampleStrf Store.empty
    ⟨"check email", aliceUser, none⟩).1 rfl
  have h2 := (C4_register_fork true sampleStrf Store.empty
    ⟨"ok", aliceUser, some ⟨"A1", "R1", "bearer"⟩⟩).2
    ⟨"A1", "R1", "bearer"⟩ rfl
  exact ⟨h1.1, h1.2 (by decide), h2.2⟩

/-! ### C8: deleteAccount clears on success, untouched on failure -/

/-- **C8.** `deleteAccount` on a success response returns without
error and clears all local session state (in a browser context the
store is left empty; the clearing is the guarded `clearTokens`, a no-op
where no medium exists).  On a non-ok response it throws the extracted
error message and leaves the store exactly unchanged, and on a
transport rejection it propagates the rejection with the store exactly
unchanged — no partial clearing on any failure. -/
theorem C8_delete_atomicity (w : Bool) (st : Store)
    (detail err : Option String) :
    (deleteAccount w st .success).1 = Except.ok () ∧
    (deleteAccount true st .success).2 = Store.empty ∧
    deleteAccount w st (.fail detail err) =
      (Except.error (.error (errMsg detail err "Account deletion failed")),
       st) ∧
    deleteAccount w st .netErr = (Except.error .transport, st) := by
  exact ⟨by simp [deleteAccount], by simp [deleteAccount, clearTokens],
    by simp [deleteAccount], by simp [deleteAccount]⟩

/-! ### C1: the retry-after-refresh recursion -/

/-- Counterexample to C1 as stated.  The claim says a second 401 after
a successful refresh must fail with `SessionExpired` and never trigger
another refresh-and-retry cycle.  Concretely: starting from a full
session, the transport answers 401 twice, each refresh succeeding (new
tokens `A2` then `A3`), and the third attempt succeeds.  The source's
`return this.getProfile()` (line 177) recurses, so the call runs a
*second* refresh-and-retry cycle after the second 401 and completes
with the user — the final store's access token `A3` shows the second
refresh took place — instead of failing with `Session expired`. -/
theorem C1_counterexample :
    getProfile true sampleStrf ⟨some "A1", some "R1", none⟩
      [(.fail 401, .success ⟨some "A2", none⟩),
       (.fail 401, .success ⟨some "A3", none⟩),
       (.success aliceUser, .fail)] =
      some (Except.ok aliceUser,
        ⟨some "A3", some "R1", some "alice"⟩) := by
  rfl

/-- Helper for C1: with a refresh token stored, a transport that keeps
answering 401 with refreshes succeeding makes `getProfile` consume any
number of rounds without terminating (the run is still in progress when
the trace is exhausted, whatever its length). -/
theorem getProfile_always401_diverges (strf : User → String) (n : Nat) :
    ∀ st : Store, truthyS st.refresh_token = true →
      getProfile true strf st
        (List.replicate n (ProfileResp.fail 401,
          RefreshResp.success ⟨some "A", none⟩)) = none := by
  induction n with
  | zero => intro st _; rfl
  | succ n ih =>
    intro st h
    have hrt : truthyS (getRefreshToken true st) = true := by
      simpa [getRefreshToken] using h
    have hext : extractAccessToken ⟨some "A", none⟩ = some "A" := rfl
    have htr : truthyS (some "A") = true := rfl
    have hr : refreshAccessToken true st (.success ⟨some "A", none⟩) =
        (true, { st with access_token := some "A" }) := by
      simp [refreshAccessToken, hrt, refreshTryBody, hext, htr,
        rawSetAccessToken]
    rw [List.replicate_succ]
    have hstep : getProfile true strf st
        ((ProfileResp.fail 401, RefreshResp.success ⟨some "A", none⟩) ::
          List.replicate n (ProfileResp.fail 401,
            RefreshResp.success ⟨some "A", none⟩)) =
        getProfile true strf { st with access_token := some "A" }
          (List.replicate n (ProfileResp.fail 401,
            RefreshResp.success ⟨some "A", none⟩)) := by
      simp [getProfile, hr]
    rw [hstep]
    exact ih _ h

/-- **C1 (amended).** When `getProfile` receives a 401, it runs the
refresh protocol and, if the refresh succeeded, *recurses*: every
subsequent 401 whose refresh succeeds triggers a further
refresh-and-retry cycle, and the call fails with `Session expired`
exactly when a refresh attempt fails.  In particular, with a refresh
token stored and a transport that always answers 401 with refreshes
succeeding, the recursion never terminates — there is no one-retry
cap. -/
theorem C1_amended (w : Bool) (strf : User → String) (st : Store)
    (rr : RefreshResp) (rest : List ProfileRound) (n : Nat) :
    (getProfile w strf st ((.fail 401, rr) :: rest) =
      match refreshAccessToken w st rr with
      | (true, st') => getProfile w strf st' rest
      | (false, st') =>
        some (Except.error (.error "Session expired"), st')) ∧
    (truthyS st.refresh_token = true →
      getProfile true strf st
        (List.replicate n (ProfileResp.fail 401,
          RefreshResp.success ⟨some "A", none⟩)) = none) := by
  constructor
  · rcases hr : refreshAccessToken w st rr with ⟨b, st'⟩
    cases b <;> simp [getProfile, hr]
  · exact fun h => getProfile_always401_diverges strf n st h

/-- Witness for C1 (amended), at a concrete session store: one 401
round unrolls to the recursive call on the refreshed store, and three
always-401 rounds leave the run still in progress. -/
theorem C1_witness :
    (getProfile true sampleStrf sampleStore
        [(.fail 401, .success ⟨some "A2", none⟩)] =
      match refreshAccessToken true sampleStore
          (.success ⟨some "A2", none⟩) with
      | (true, st') => getProfile true sampleStrf st' []
      | (false, st') =>
        some (Except.error (.error "Session expired"), st')) ∧
    getProfile true sampleStrf sampleStore
      (List.replicate 3 (ProfileResp.fail 401,
        RefreshResp.success ⟨some "A", none⟩)) = none := by
  have h := C1_amended true sampleStrf sampleStore
    (.success ⟨some "A2", none⟩) [] 3
  exact ⟨h.1, h.2 (by decide)⟩

/-! ### C9: refresh in a non-browser context -/

/-- Counterexample to C9 as stated.  The claim explains the guaranteed
failure by the unguarded write throwing and being caught by refresh's
handler "even when the transport returns a success response with an
extractable access token".  In fact the very premise of that scenario —
the getters return absent in a non-browser context, as the claim itself
states — makes line 248's early return fire first: with a refresh token
in the (inaccessible) store, the guarded getter is falsy, and the call
returns `false` with an *identical* result for a success response, a
non-ok response and a transport rejection — no fetch outcome influences
the run, so the transport is never consulted and the `try` block
containing the write (the only place `refreshAccessToken` invokes
`refreshTryBody`, under the truthiness guard refuted below) is never
entered.  The write's failure is therefore never what the `catch`
handles. -/
theorem C9_counterexample :
    truthyS (getRefreshToken false ⟨none, some "R1", none⟩) = false ∧
    refreshAccessToken false ⟨none, some "R1", none⟩
        (.success ⟨some "A2", none⟩) = (false, ⟨none, some "R1", none⟩) ∧
    refreshAccessToken false ⟨none, some "R1", none⟩ .netErr =
      (false, ⟨none, some "R1", none⟩) ∧
    refreshAccessToken false ⟨none, some "R1", none⟩ .fail =
      (false, ⟨none, some "R1", none⟩) := by
  refine ⟨rfl, rfl, rfl, rfl⟩

/-- **C9 (amended).** In a non-browser context `refreshAccessToken` can
never succeed and never throws, but not for the reason the claim gives:
the guarded refresh-token getter returns absent, so the call returns
`false` at its initial check, for every prior store and transport
outcome, without issuing a network call (the result is independent of
the transport outcome).  The direct access-token write does bypass the
environment guard used by `setTokens` and would throw a
`ReferenceError` inside the `try` block if it were reached with an
extractable token — but the early return makes that path unreachable
in this context. -/
theorem C9_amended (st : Store) (r r' : RefreshResp)
    (body : RefreshBody)
    (hex : truthyS (extractAccessToken body) = true) :
    refreshAccessToken false st r = (false, st) ∧
    refreshAccessToken false st r = refreshAccessToken false st r' ∧
    refreshTryBody false st (.success body) = .error .refError := by
  have h : truthyS (getRefreshToken false st) = false := rfl
  refine ⟨by simp [refreshAccessToken, h], by simp [refreshAccessToken, h],
    ?_⟩
  cases hacc : extractAccessToken body with
  | none => rw [hacc] at hex; simp [truthyS] at hex
  | some v =>
    rw [hacc] at hex
    simp [refreshTryBody, hacc, hex, rawSetAccessToken]

/-- Witness for C9 (amended): concrete non-browser run with a stored
refresh token and an extractable success body. -/
theorem C9_witness :
    refreshAccessToken false ⟨none, some "R1", none⟩
        (.success ⟨some "A2", none⟩) =
      (false, ⟨none, some "R1", none⟩) ∧
    refreshAccessToken false ⟨none, some "R1", none⟩
        (.success ⟨some "A2", none⟩) =
      refreshAccessToken false ⟨none, some "R1", none⟩ .netErr ∧
    refreshTryBody false ⟨none, some "R1", none⟩
        (.success ⟨some "A2", none⟩) = .error .refError :=
  C9_amended ⟨none, some "R1", none⟩ (.success ⟨some "A2", none⟩)
    .netErr ⟨some "A2", none⟩ (by decide)

/-! ### C10: the identity read on malformed stored data -/

/-- **C10.** For every deserializer standing in for `JSON.parse`: in a
browser context, a slot holding a non-empty string the deserializer
rejects makes `getUser` throw the parse error (it is not caught), and
`getUser` returns absent exactly when no persistence medium exists or
the slot is empty — absent, or holding the empty string, which JS
truthiness short-circuits to `null` before any parse is attempted. -/
theorem C10_getUser_parse_error (parse : String → Option User) :
    (∀ (st : Store) (s : String), st.user = some s → s ≠ "" →
      parse s = none → getUser true parse st = Except.error .syntaxError) ∧
    (∀ (w : Bool) (st : Store), getUser w parse st = Except.ok none ↔
      (w = false ∨ st.user = none ∨ st.user = some "")) := by
  constructor
  · intro st s hs hne hbad
    simp [getUser, hs, hne, hbad]
  · intro w st
    cases w with
    | false => simp [getUser]
    | true =>
      cases hu : st.user with
      | none => simp [getUser, hu]
      | some s =>
        by_cases hne : s = ""
        · subst hne; simp [getUser, hu]
        · cases hp : parse s with
          | none => simp [getUser, hu, hne, hp]
          | some u => simp [getUser, hu, hne, hp]

/-- Witness for C10: a concrete deserializer rejecting `"not-json"`
makes `getUser` throw; an empty-string slot reads back as absent. -/
theorem C10_witness :
    getUser true sampleParse ⟨none, none, some "not-json"⟩ =
      Except.error .syntaxError ∧
    (getUser true sampleParse ⟨none, none, some ""⟩ = Except.ok none ↔
      (true = false ∨ (⟨none, none, some ""⟩ : Store).user = none ∨
        (⟨none, none, some ""⟩ : Store).user = some "")) := by
  have h := C10_getUser_parse_error sampleParse
  exact ⟨h.1 ⟨none, none, some "not-json"⟩ "not-json" rfl (by decide)
    (by decide), h.2 true ⟨none, none, some ""⟩⟩
